import Mathlib

/-!
Shallow embedding of `src/java-archiver.py` (GameJoltArchiver).

Conventions of the embedding:
* Python strings are Lean `String`s; character-level operations work on
  `String.data` (`List Char`).  Python's `str.isalnum`/`str.lower` are
  Unicode-wide; the embedding uses the ASCII `Char.isAlphanum`/`Char.toLower`
  (theorems that depend on this carry an ASCII hypothesis).
* A URL that the Python code passes through `urllib.parse.urlparse` is
  modelled already parsed, as a `PyUrl` record: `netloc`, `path`, and the
  query as the ordered list of `key=value` pairs (before `parse_qs`'s
  filtering of blank values, which is modelled in `pyParseQsFirst`).
* JSON payloads from the two service endpoints are modelled as typed records
  with `Option` fields for keys that may be absent; Python `None` stored
  under a present key is the inner `none` of a double `Option`.
* Network and filesystem effects are explicit: the set of existing files is
  a `List String` of paths, transports are functions in an `Env` record, and
  an uncaught Python exception is a `.error`/`crashed` value.
-/

/-- Python `s.endswith(suffix)`. -/
def pyEndsWith (s suffix : String) : Bool :=
  suffix.data.isSuffixOf s.data

/-- Python `s.startswith(prefix)` (used by `os.path.join`). -/
def pyStartsWith (s pre : String) : Bool :=
  pre.data.isPrefixOf s.data

/-- Python `s.split('/')` on the character list: splitting on a single
separator character, keeping empty fields (`''.split('/') == ['']`). -/
def pySplitSlash : List Char → List (List Char)
  | [] => [[]]
  | c :: cs =>
    let r := pySplitSlash cs
    if c == '/' then [] :: r
    else
      match r with
      | [] => [[c]]
      | h :: t => (c :: h) :: t

/-- Python `s.strip('/')`: remove leading and trailing `'/'` characters. -/
def stripSlashes (l : List Char) : List Char :=
  ((l.dropWhile (fun c => c == '/')).reverse.dropWhile (fun c => c == '/')).reverse

/-- Python `s.isdigit()` for a path segment (ASCII digits; `'' .isdigit()` is
`False`). -/
def pyIsDigitSeg (l : List Char) : Bool :=
  !l.isEmpty && l.all Char.isDigit

/-- Python `int(s)` on a string of digits. -/
def digitsToNat (l : List Char) : Nat :=
  l.foldl (fun n c => 10 * n + (c.toNat - 48)) 0

/-- A URL after `urllib.parse.urlparse`: network location, path, and the
query as ordered `key=value` pairs. -/
structure PyUrl where
  netloc : String
  path : String
  query : List (String × String) := []
deriving DecidableEq

/-- One attempt of the regex `/games/[^/]+/(\d+)/?` at the start of `s`:
the literal `/games/`, a maximal nonempty run of non-`/` characters, a `/`,
then the (greedy) digit group.  The trailing `/?` is optional and cannot
make the attempt fail. -/
def matchGamesAt (s : List Char) : Option Nat :=
  if "/games/".data.isPrefixOf s then
    let rest := s.drop 7
    let slug := rest.takeWhile (fun c => !(c == '/'))
    if slug.isEmpty then none
    else
      match rest.drop slug.length with
      | '/' :: rest2 =>
        let ds := rest2.takeWhile Char.isDigit
        if ds.isEmpty then none else some (digitsToNat ds)
      | _ => none
  else none

/-- Python `re.search(r'/games/[^/]+/(\d+)/?', path)`: the attempt at the
leftmost position that matches wins. -/
def searchGamesId : List Char → Option Nat
  | [] => none
  | c :: cs =>
    match matchGamesAt (c :: cs) with
    | some n => some n
    | none => searchGamesId cs

/-- `GameJoltArchiver.extract_game_id_from_url` (src/java-archiver.py:68-104).
The `try` block is total here (no modelled operation raises). -/
def extract_game_id_from_url (u : PyUrl) : Option Nat :=
  if pyEndsWith u.netloc "gamejolt.com" then
    let segs := pySplitSlash (stripSlashes u.path.data)
    if 3 ≤ segs.length ∧ segs.headD [] = "games".data then
      if pyIsDigitSeg (segs.getLastD []) then some (digitsToNat (segs.getLastD []))
      else searchGamesId u.path.data
    else none
  else none

/-- `urllib.parse.parse_qs(query)[k][0]` guarded by `k in parse_qs(query)`:
`parse_qs` keeps values in order and (with the default
`keep_blank_values=False`) drops pairs whose value is empty, so the first
retained value of `k` is the first pair with key `k` and a nonempty value;
the key is absent when no such pair exists. -/
def pyParseQsFirst (q : List (String × String)) (k : String) : Option String :=
  ((q.filter (fun p => !(p.2 == ""))).find? (fun p => p.1 == k)).map (fun p => p.2)

/-- `GameJoltArchiver.extract_token_from_url` (src/java-archiver.py:138-166). -/
def extract_token_from_url (u : PyUrl) : Option String :=
  match pyParseQsFirst u.query "token" with
  | some v => some v
  | none =>
    if u.netloc == "gamejolt.net" && u.path == "" then
      match pyParseQsFirst u.query "token" with
      | some v => some v
      | none => none
    else none

/-- The first branch of `extract_token_from_url` alone (query-parameter
shape): what the function would be with the direct-token-URL branch
removed.  Used to compare the two parsing branches (claim C6). -/
def extract_token_first_branch (u : PyUrl) : Option String :=
  match pyParseQsFirst u.query "token" with
  | some v => some v
  | none => none

/-- Python truthiness of a string-valued `dict.get`: missing keys and empty
strings are falsy. -/
def pyTruthyStrOpt : Option String → Bool
  | none => false
  | some s => !(s == "")

/-- Python truthiness of a number-valued `dict.get`: missing keys and `0`
are falsy. -/
def pyTruthyNatOpt : Option Nat → Bool
  | none => false
  | some n => !(n == 0)

/-- `build.primary_file` of the gameserver payload; a field is `none` when
the key is absent or its value is JSON null (both read back as Python `None`
through `.get`). -/
structure PrimaryFile where
  filename : Option String := none
  filesize : Option Nat := none
deriving DecidableEq

/-- `build` of the gameserver payload. -/
structure Build where
  id : Option Nat := none
  type : Option String := none
  added_on : Option Nat := none
  updated_on : Option Nat := none
  os_windows : Bool := false
  os_mac : Bool := false
  os_linux : Bool := false
  os_other : Bool := false
  embed_width : Option Nat := none
  embed_height : Option Nat := none
  java_class_name : Option String := none
  primary_file : Option PrimaryFile := none
deriving DecidableEq

/-- `game` of the gameserver payload. -/
structure Game where
  id : Option Nat := none
  title : Option String := none
deriving DecidableEq

/-- The gameserver payload (`download_info` in the source). -/
structure DownloadInfo where
  url : Option String := none
  build : Option Build := none
  game : Option Game := none
  javaArchive : Option String := none
  javaCodebase : Option String := none
deriving DecidableEq

/-- Python truthiness of the payload dict itself: the empty dict is falsy. -/
def diIsEmpty (di : DownloadInfo) : Bool :=
  di.url.isNone && di.build.isNone && di.game.isNone &&
    di.javaArchive.isNone && di.javaCodebase.isNone

/-- The result dict of `get_file_details`.  An outer `none` means the key
was never put into the dict; an inner `none` is a stored Python `None`. -/
structure FileDetails where
  download_url : Option String := none
  filename : Option (Option String) := none
  filesize : Option (Option Nat) := none
  build_id : Option (Option Nat) := none
  type : Option (Option String) := none
  added_on : Option (Option Nat) := none
  updated_on : Option (Option Nat) := none
  platforms : Option (List String) := none
  width : Option Nat := none
  height : Option Nat := none
  game_id : Option (Option Nat) := none
  title : Option (Option String) := none
  java_archive : Option String := none
  java_codebase : Option (Option String) := none
  java_class_name : Option String := none
deriving DecidableEq

/-- `GameJoltArchiver.get_file_details` (src/java-archiver.py:220-274).
The source fills a dict key by key, each key at most once; the record is
written with each key's final value under the source's conditions. -/
def get_file_details (di : DownloadInfo) : FileDetails :=
  { download_url := di.url,
    filename := match di.build with
      | some b => match b.primary_file with
        | some pf => some pf.filename
        | none => none
      | none => none,
    filesize := match di.build with
      | some b => match b.primary_file with
        | some pf => some pf.filesize
        | none => none
      | none => none,
    build_id := match di.build with
      | some b => some b.id
      | none => none,
    type := match di.build with
      | some b => some b.type
      | none => none,
    added_on := match di.build with
      | some b => some b.added_on
      | none => none,
    updated_on := match di.build with
      | some b => some b.updated_on
      | none => none,
    platforms := match di.build with
      | some b => some
          ((if b.os_windows then ["Windows"] else []) ++
           (if b.os_mac then ["Mac"] else []) ++
           (if b.os_linux then ["Linux"] else []) ++
           (if b.os_other then ["Other"] else []))
      | none => none,
    width := match di.build with
      | some b => if pyTruthyNatOpt b.embed_width then b.embed_width else none
      | none => none,
    height := match di.build with
      | some b => if pyTruthyNatOpt b.embed_height then b.embed_height else none
      | none => none,
    game_id := match di.game with
      | some g => some g.id
      | none => none,
    title := match di.game with
      | some g => some g.title
      | none => none,
    java_archive := if pyTruthyStrOpt di.javaArchive then di.javaArchive else none,
    java_codebase := if pyTruthyStrOpt di.javaArchive then some di.javaCodebase else none,
    java_class_name :=
      if pyTruthyStrOpt di.javaArchive then
        match di.build with
        | some b => if pyTruthyStrOpt b.java_class_name then b.java_class_name else none
        | none => none
      else none }

/-- Python `os.path.join(a, b)` for one joint (posix rules: an absolute
second part wins; a separator is inserted unless `a` is empty or already
ends with one). -/
def pyPathJoin (a b : String) : String :=
  if pyStartsWith b "/" then b
  else if a == "" then b
  else if pyEndsWith a "/" then a ++ b
  else a ++ "/" ++ b

/-- Python `f"{v}"` of a string-or-None value: `None` renders as `"None"`. -/
def optStrRender : Option String → String
  | none => "None"
  | some s => s

/-- What one run of `create_cheerpj_html` writes: the file path and the
template parameters interpolated into the fixed HTML page (the surrounding
markup has no logic and is abstracted to this record). -/
structure EmittedHtml where
  path : String
  title : String
  archive : String
  code : String
  width : Nat
  height : Nat
deriving DecidableEq

/-- `GameJoltArchiver.create_cheerpj_html` (src/java-archiver.py:365-457).
Returns the `(success, path-or-message)` pair of the source together with
the file it writes, `none` when it writes nothing. -/
def create_cheerpj_html (fd : FileDetails) (output_dir : String) :
    (Bool × String) × Option EmittedHtml :=
  if fd.java_class_name.isNone || fd.filename.isNone then
    ((false, "Missing Java class name or filename in file details"), none)
  else
    let htmlPath := pyPathJoin output_dir "cheerpj.html"
    ((true, htmlPath),
     some { path := htmlPath,
            title := optStrRender (match fd.title with | none => some "Game" | some v => v),
            archive := optStrRender (fd.filename.getD none),
            code := optStrRender fd.java_class_name,
            width := fd.width.getD 640,
            height := fd.height.getD 480 })

/-- One character of the `safe_title` comprehension: keep alphanumerics
(ASCII here; see the file comment) and `' '`, `'-'`, `'_'`; replace
everything else with `'_'`. -/
def pyKeepChar (c : Char) : Char :=
  if c.isAlphanum || c == ' ' || c == '-' || c == '_' then c else '_'

/-- Python `str` whitespace (the ASCII part), for `.strip()`. -/
def pyIsSpace (c : Char) : Bool :=
  c == ' ' || c == '\t' || c == '\n' || c == '\r' || c == '\x0b' || c == '\x0c'

/-- Python `s.strip()` on a character list. -/
def pyStripWs (l : List Char) : List Char :=
  ((l.dropWhile pyIsSpace).reverse.dropWhile pyIsSpace).reverse

/-- The title sanitization of `GameJoltArchiver.create_game_directory`
(src/java-archiver.py:336-341): keep `[alnum _-]`, map the rest to `'_'`,
strip, then replace the remaining spaces with `'_'`. -/
def sanitize_title (t : String) : String :=
  String.mk ((pyStripWs (t.data.map pyKeepChar)).map (fun c => if c == ' ' then '_' else c))

/-- `GameJoltArchiver.create_game_directory` (src/java-archiver.py:336-346);
the `os.makedirs` side effect is not part of the file model. -/
def create_game_directory (download_dir game_title : String) : String :=
  pyPathJoin download_dir (sanitize_title game_title)

/-- The destination path `download_file` writes to
(src/java-archiver.py:290-298). -/
def download_dest (filename game_title : String) (output_path : Option String)
    (download_dir : String) : String :=
  match output_path with
  | some p => p
  | none => pyPathJoin (create_game_directory download_dir game_title) filename

/-- `GameJoltArchiver.download_file` (src/java-archiver.py:276-334) over an
explicit filesystem (`fs`, the list of existing paths) and transport
(`net`, `none` = the request or its status check raises).  Result:
the source's `(success, path-or-message)` pair, the filesystem after the
call, and how many network requests were issued (the `url is None` case
raises inside `requests` before any request is sent). -/
def download_file (net : String → Option Unit) (fs : List String)
    (url : Option String) (filename game_title : String)
    (output_path : Option String) (download_dir : String) :
    (Bool × String) × List String × Nat :=
  let dest := download_dest filename game_title output_path download_dir
  if fs.contains dest then ((true, dest), fs, 0)
  else
    match url with
    | none => ((false, "Error downloading file"), fs, 0)
    | some u =>
      match net u with
      | none => ((false, "Error downloading file"), fs, 1)
      | some _ => ((true, dest), dest :: fs, 1)

/-- Python `s.lower()` (ASCII case folding; filenames here are ASCII). -/
def pyLower (s : String) : String :=
  String.mk (s.data.map Char.toLower)

/-- Python `os.path.dirname(p)` (posix): everything up to the last `'/'`,
with trailing slashes stripped unless the head is all slashes. -/
def pyDirname (s : String) : String :=
  match s.data.reverse.dropWhile (fun c => !(c == '/')) with
  | [] => ""
  | l =>
    if l.all (fun c => c == '/') then String.mk l.reverse
    else String.mk ((l.dropWhile (fun c => c == '/')).reverse)

/-- `file_details.get('filename', '')` in `process_game`
(src/java-archiver.py:533): the default `''` when the key is absent,
otherwise the stored value (which may be Python `None`). -/
def pyFilename (fd : FileDetails) : Option String :=
  fd.filename.getD (some "")

/-- One entry of `game_info['builds']`; only `build['id']` feeds the
non-printing logic of `process_game` (the other subscripts occur in
verbose-only `print` calls, which the model omits). -/
structure OverviewBuild where
  id : Nat
deriving DecidableEq

/-- The overview payload as `process_game` reads it: `microdata.name`,
`microdata.url`, and the build list (`.get('builds')` falsy — missing or
empty — collapses to `[]`). -/
structure GameInfo where
  name : String
  url : String := ""
  builds : List OverviewBuild := []

/-- The mocked collaborators of one run.  `buildApi bid`: `none` = the POST
(or its status/JSON handling) raises, `some none` = the response lacks
`payload`/`payload.url`, `some (some u)` = `payload.url`, already parsed.
`gameserver tok`: `none` = that GET raises, `some none` = the response has
no `payload` key (the source then defaults to the empty dict),
`some (some di)` = the payload.  `net` and `fs0` feed `download_file`. -/
structure Env where
  gameInfo : Option GameInfo := none
  buildApi : Nat → Option (Option PyUrl) := fun _ => none
  gameserver : String → Option (Option DownloadInfo) := fun _ => none
  net : String → Option Unit := fun _ => none
  fs0 : List String := []

/-- `GameJoltArchiver.get_build_download_url` (src/java-archiver.py:168-218).
Every caught failure returns `none`; a gameserver response without a
`payload` key returns the empty payload (`.get("payload", {})`). -/
def get_build_download_url (env : Env) (build_id : Nat) : Option DownloadInfo :=
  match env.buildApi build_id with
  | none => none
  | some none => none
  | some (some url) =>
    match extract_token_from_url url with
    | none => none
    | some token =>
      match env.gameserver token with
      | none => none
      | some none => some {}
      | some (some di) => some di

/-- The CLI flags that reach `process_game` (defaults as in the source
signature, src/java-archiver.py:459-461). -/
structure Flags where
  verbose : Bool := false
  print_java_class : Bool := false
  download : Bool := true
  create_cheerpj : Bool := false
  output_path : Option String := none

/-- One entry of `java_class_info` (src/java-archiver.py:521-529). -/
structure JavaInfo where
  filename : Option String
  java_class : String
  java_archive : String
  java_codebase : Option String
  title : String
  width : Nat
  height : Nat
deriving DecidableEq

/-- The `java_info` dict built for one build. -/
def mkJavaInfo (fd : FileDetails) (title : String) : JavaInfo :=
  { filename := pyFilename fd,
    java_class := fd.java_class_name.getD "",
    java_archive := fd.java_archive.getD "",
    java_codebase := fd.java_codebase.getD (some ""),
    title := title,
    width := fd.width.getD 640,
    height := fd.height.getD 480 }

/-- What one iteration of the build loop did. -/
structure BuildOutcome where
  buildId : Nat
  /-- `file_details` when the resolution produced a truthy payload. -/
  resolved : Option FileDetails := none
  javaInfo : Option JavaInfo := none
  /-- the `jar_files` entry appended for this build, if any. -/
  jarEntry : Option (Option String × String) := none
  /-- result pair of `download_file`, when it was called. -/
  downloadResult : Option (Bool × String) := none
  /-- result of `create_cheerpj_html`, when it was called. -/
  cheerpj : Option ((Bool × String) × Option EmittedHtml) := none
deriving DecidableEq

/-- The `java_info` collection decision for one build
(src/java-archiver.py:520-530). -/
def javaInfoOf (fl : Flags) (fd : FileDetails) (title : String) : Option JavaInfo :=
  if fd.java_class_name.isSome && (fl.print_java_class || fl.create_cheerpj)
  then some (mkJavaInfo fd title) else none

/-- One iteration of the build loop of `process_game`
(src/java-archiver.py:499-557) for one build, threading the filesystem.
`.error` models the uncaught `AttributeError` of `filename.lower()` when
the stored filename is Python `None` and downloads are enabled.  The
`download_dir` is the `GameJoltArchiver()` default `"downloads"`, since
`process_game` constructs its own archiver without passing one. -/
def processBuild (env : Env) (fl : Flags) (gameTitle : String)
    (fs : List String) (b : OverviewBuild) :
    Except String (BuildOutcome × List String) :=
  match get_build_download_url env b.id with
  | none => .ok ({ buildId := b.id }, fs)
  | some di =>
    if diIsEmpty di then .ok ({ buildId := b.id }, fs)
    else if fl.download then
      match pyFilename (get_file_details di) with
      | none => .error "AttributeError: NoneType object has no attribute lower"
      | some fn =>
        if pyEndsWith (pyLower fn) ".jar" then
          .ok ({ buildId := b.id, resolved := some (get_file_details di),
                 javaInfo := javaInfoOf fl (get_file_details di) gameTitle,
                 jarEntry := some ((get_file_details di).download_url, fn),
                 downloadResult := some (download_file env.net fs
                   (get_file_details di).download_url fn gameTitle fl.output_path
                   "downloads").1,
                 cheerpj := if fl.create_cheerpj &&
                     (download_file env.net fs (get_file_details di).download_url fn
                       gameTitle fl.output_path "downloads").1.1 &&
                     (get_file_details di).java_class_name.isSome then
                     some (create_cheerpj_html
                       { get_file_details di with title := some (some gameTitle) }
                       (pyDirname (download_file env.net fs
                         (get_file_details di).download_url fn gameTitle fl.output_path
                         "downloads").1.2))
                   else none },
               (download_file env.net fs (get_file_details di).download_url fn gameTitle
                 fl.output_path "downloads").2.1)
        else
          .ok ({ buildId := b.id, resolved := some (get_file_details di),
                 javaInfo := javaInfoOf fl (get_file_details di) gameTitle }, fs)
    else
      .ok ({ buildId := b.id, resolved := some (get_file_details di),
             javaInfo := javaInfoOf fl (get_file_details di) gameTitle }, fs)

/-- The build loop: outcomes so far, the accumulated `jar_files`, the
filesystem after the loop, and the message of the uncaught exception, if
one aborted the loop. -/
def processBuilds (env : Env) (fl : Flags) (gameTitle : String) :
    List String → List OverviewBuild →
    List BuildOutcome × List (Option String × String) × List String × Option String
  | fs, [] => ([], [], fs, none)
  | fs, b :: rest =>
    match processBuild env fl gameTitle fs b with
    | .error e => ([], [], fs, some e)
    | .ok (o, fs1) =>
      let r := processBuilds env fl gameTitle fs1 rest
      (o :: r.1,
       (match o.jarEntry with | some j => j :: r.2.1 | none => r.2.1),
       r.2.2.1, r.2.2.2)

/-- The observable result of one `process_game` run. -/
structure ProcessResult where
  /-- the game info was retrieved (truthy payload). -/
  fetched : Bool := false
  /-- printed "No builds found for this game." -/
  noBuilds : Bool := false
  outcomes : List BuildOutcome := []
  jarFiles : List (Option String × String) := []
  /-- printed "No JAR files found for this game." -/
  noJarNotice : Bool := false
  /-- message of an uncaught exception that ended the run early. -/
  crashed : Option String := none

/-- `process_game` (src/java-archiver.py:459-573).  The `game_id` argument
only feeds a referer header and prints, so the model threads it through
unused. -/
def process_game (env : Env) (fl : Flags) (_game_id : Nat) : ProcessResult :=
  match env.gameInfo with
  | none => {}
  | some gi =>
    if gi.builds.isEmpty then { fetched := true, noBuilds := true }
    else
      let r := processBuilds env fl gi.name env.fs0 gi.builds
      { fetched := true, outcomes := r.1, jarFiles := r.2.1,
        noJarNotice := (match r.2.2.2 with
          | some _ => false
          | none => fl.download && r.2.1.isEmpty),
        crashed := r.2.2.2 }

def envC7 : Env :=
  { gameInfo := some { name := "G", builds := [⟨1⟩, ⟨2⟩] },
    buildApi := fun n =>
      if n == 1 then
        some (some { netloc := "gamejolt.net", path := "", query := [("token", "tokA")] })
      else if n == 2 then
        some (some { netloc := "gamejolt.net", path := "", query := [("token", "tokB")] })
      else none,
    gameserver := fun t =>
      if t == "tokA" then
        some (some { build := some { id := some 1, primary_file := some { filename := none } } })
      else if t == "tokB" then
        some (some { url := some "http://x/ok.jar",
                     build := some { id := some 2,
                                     primary_file := some { filename := some "ok.jar",
                                                            filesize := some 10 } } })
      else none,
    net := fun _ => some (),
    fs0 := [] }

def envC9 : Env :=
  { gameInfo := some { name := "My Game", builds := [⟨9⟩] },
    buildApi := fun n =>
      if n == 9 then
        some (some { netloc := "gamejolt.net", path := "", query := [("token", "tk")] })
      else none,
    gameserver := fun t =>
      if t == "tk" then
        some (some { url := some "http://dl/f.jar",
                     build := some { id := some 9,
                                     primary_file := some { filename := some "Game.JAR",
                                                            filesize := some 100 } } })
      else none,
    net := fun _ => some (),
    fs0 := [] }

theorem digit_not_slash {c : Char} (h : c.isDigit = true) : (c == '/') = false := by
  cases hc : (c == '/') with
  | false => rfl
  | true =>
    have : c = '/' := by simpa using hc
    subst this
    simp at h

theorem pySplitSlash_no_slash {a : List Char} (h : ∀ c ∈ a, (c == '/') = false) :
    pySplitSlash a = [a] := by
  induction a with
  | nil => rfl
  | cons c t ih =>
    have hc := h c (by simp)
    have ht : ∀ c ∈ t, (c == '/') = false := fun x hx => h x (by simp [hx])
    simp [pySplitSlash, hc, ih ht]

theorem pySplitSlash_append {a : List Char} (b : List Char)
    (h : ∀ c ∈ a, (c == '/') = false) :
    pySplitSlash (a ++ '/' :: b) = a :: pySplitSlash b := by
  induction a with
  | nil => simp [pySplitSlash]
  | cons c t ih =>
    have hc := h c (by simp)
    have ht : ∀ c ∈ t, (c == '/') = false := fun x hx => h x (by simp [hx])
    simp only [List.cons_append, pySplitSlash, hc, List.append_eq,
      Bool.false_eq_true, if_false]
    rw [ih ht]

theorem stripSlashes_games (slug ds : List Char)
    (hds : ds ≠ []) (hdsd : ∀ c ∈ ds, c.isDigit = true) :
    stripSlashes (['/', 'g', 'a', 'm', 'e', 's', '/'] ++ (slug ++ '/' :: ds)) =
      ['g', 'a', 'm', 'e', 's', '/'] ++ (slug ++ '/' :: ds) := by
  have h1 : (['/', 'g', 'a', 'm', 'e', 's', '/'] ++ (slug ++ '/' :: ds)).dropWhile
      (fun c => c == '/') = ['g', 'a', 'm', 'e', 's', '/'] ++ (slug ++ '/' :: ds) := rfl
  unfold stripSlashes
  rw [h1]
  cases hrev : ds.reverse with
  | nil => exact absurd (List.reverse_eq_nil_iff.mp hrev) hds
  | cons d dr =>
    have hd : d ∈ ds := by
      have : d ∈ ds.reverse := by rw [hrev]; simp
      simpa using this
    have hdnot : (d == '/') = false := by
      have h2 := hdsd d hd
      cases hdd : (d == '/') with
      | false => rfl
      | true =>
        have : d = '/' := by simpa using hdd
        subst this
        simp [Char.isDigit] at h2
    have hrw : ((['g', 'a', 'm', 'e', 's', '/'] : List Char) ++ (slug ++ '/' :: ds)).reverse =
        d :: (dr ++ ('/' :: slug.reverse) ++
          (['g', 'a', 'm', 'e', 's', '/'] : List Char).reverse) := by
      simp [List.reverse_append, hrev]
    rw [hrw, List.dropWhile_cons, hdnot]
    simp only [Bool.false_eq_true, if_false]
    rw [← hrw, List.reverse_reverse]

theorem extract_game_id_pos (host : String) (slug ds : List Char)
    (q : List (String × String))
    (hh : pyEndsWith host "gamejolt.com" = true)
    (hslug : slug ≠ []) (hs : ∀ c ∈ slug, (c == '/') = false)
    (hds : ds ≠ []) (hdsd : ∀ c ∈ ds, c.isDigit = true) :
    extract_game_id_from_url ⟨host, String.mk ("/games/".data ++ (slug ++ '/' :: ds)), q⟩ =
      some (digitsToNat ds) := by
  have hdss : ∀ c ∈ ds, (c == '/') = false := fun c hc => digit_not_slash (hdsd c hc)
  unfold extract_game_id_from_url
  simp only [hh, if_true]
  rw [stripSlashes_games slug ds hds hdsd,
    show (['g', 'a', 'm', 'e', 's', '/'] : List Char) ++ (slug ++ '/' :: ds) =
      ['g', 'a', 'm', 'e', 's'] ++ ('/' :: (slug ++ '/' :: ds)) from rfl,
    pySplitSlash_append (a := ['g', 'a', 'm', 'e', 's']) (slug ++ '/' :: ds) (by decide),
    pySplitSlash_append (a := slug) ds hs, pySplitSlash_no_slash hdss]
  have hcond : 3 ≤ ([['g', 'a', 'm', 'e', 's'], slug, ds] : List (List Char)).length ∧
      ([['g', 'a', 'm', 'e', 's'], slug, ds] : List (List Char)).headD [] =
        ['g', 'a', 'm', 'e', 's'] := by
    exact ⟨by simp, rfl⟩
  rw [if_pos hcond]
  have hlast : ([['g', 'a', 'm', 'e', 's'], slug, ds] : List (List Char)).getLastD [] = ds := rfl
  rw [hlast]
  have hdig : pyIsDigitSeg ds = true := by
    cases ds with
    | nil => exact absurd rfl hds
    | cons d dr =>
      simp only [pyIsDigitSeg, List.isEmpty_cons, Bool.not_false, Bool.true_and,
        List.all_eq_true]
      exact fun c hc => hdsd c hc
  rw [hdig]
  simp

theorem mem_pyStripWs {c : Char} {l : List Char} (h : c ∈ pyStripWs l) : c ∈ l := by
  unfold pyStripWs at h
  rw [List.mem_reverse] at h
  have h2 := (List.dropWhile_sublist (p := pyIsSpace)).mem h
  rw [List.mem_reverse] at h2
  exact (List.dropWhile_sublist (p := pyIsSpace)).mem h2

theorem pyStripWs_eq_nil_iff {l : List Char} :
    pyStripWs l = [] ↔ ∀ c ∈ l, pyIsSpace c = true := by
  unfold pyStripWs
  rw [List.reverse_eq_nil_iff, List.dropWhile_eq_nil_iff]
  constructor
  · intro h c hc
    rw [← List.takeWhile_append_dropWhile (p := pyIsSpace) (l := l)] at hc
    rcases List.mem_append.mp hc with h1 | h2
    · exact List.mem_takeWhile_imp h1
    · exact h c (List.mem_reverse.mpr h2)
  · intro h c hc
    exact h c ((List.dropWhile_sublist _).mem (List.mem_reverse.mp hc))

theorem pyKeepChar_cases (c : Char) :
    pyKeepChar c = '_' ∨
      (pyKeepChar c = c ∧ (c.isAlphanum || c == ' ' || c == '-' || c == '_') = true) := by
  unfold pyKeepChar
  split
  · next hg => exact Or.inr ⟨rfl, hg⟩
  · exact Or.inl rfl

theorem pyIsSpace_pyKeepChar_iff {c : Char} : pyIsSpace (pyKeepChar c) = true ↔ c = ' ' := by
  constructor
  · intro h
    rcases pyKeepChar_cases c with hk | ⟨hk, hg⟩
    · rw [hk] at h
      simp [pyIsSpace] at h
    · rw [hk] at h
      simp only [pyIsSpace, Bool.or_eq_true, beq_iff_eq] at h
      rcases h with ((((rfl | rfl) | rfl) | rfl) | rfl) | rfl
      · rfl
      all_goals simp [pyKeepChar] at hk
  · rintro rfl
    decide

theorem pyTruthyStrOpt_true {o : Option String} (h : pyTruthyStrOpt o = true) :
    ∃ s, o = some s ∧ s ≠ "" := by
  cases o with
  | none => simp [pyTruthyStrOpt] at h
  | some s =>
    refine ⟨s, rfl, ?_⟩
    simpa [pyTruthyStrOpt] using h

theorem get_file_details_class_ne {di : DownloadInfo} {c : String}
    (h : (get_file_details di).java_class_name = some c) : c ≠ "" := by
  simp only [get_file_details] at h
  by_cases ha : pyTruthyStrOpt di.javaArchive = true
  · rw [if_pos ha] at h
    cases hb : di.build with
    | none => simp only [hb] at h; exact absurd h (by simp)
    | some b =>
      simp only [hb] at h
      by_cases hj : pyTruthyStrOpt b.java_class_name = true
      · rw [if_pos hj] at h
        obtain ⟨s, hs, hne⟩ := pyTruthyStrOpt_true hj
        rw [hs] at h
        obtain rfl := Option.some.inj h
        exact hne
      · rw [if_neg hj] at h
        simp at h
  · rw [if_neg ha] at h
    simp at h

theorem pyEndsWith_jar_ne {fn : String} (h : pyEndsWith (pyLower fn) ".jar" = true) :
    fn ≠ "" := by
  intro he
  subst he
  simp [pyEndsWith, pyLower] at h

theorem processBuild_ok_downloadResult {env : Env} {fl : Flags} {t : String}
    {fs : List String} {b : OverviewBuild} {o : BuildOutcome} {fs2 : List String}
    (hdl : fl.download = true)
    (h : processBuild env fl t fs b = .ok (o, fs2)) :
    o.downloadResult.isSome = true ↔
      ∃ fd fn, o.resolved = some fd ∧ pyFilename fd = some fn ∧
        pyEndsWith (pyLower fn) ".jar" = true := by
  unfold processBuild at h
  split at h
  next =>
    obtain ⟨rfl, rfl⟩ := by simpa using h
    simp
  next di hres =>
    split at h
    next =>
      obtain ⟨rfl, rfl⟩ := by simpa using h
      simp
    next hde =>
      split at h
      next => simp at h
      next fn hfn =>
        split at h
        next hjar =>
          obtain ⟨rfl, rfl⟩ := by simpa using h
          constructor
          · intro _
            exact ⟨get_file_details di, fn, rfl, hfn, hjar⟩
          · intro _
            rfl
        next hjar =>
          obtain ⟨rfl, rfl⟩ := by simpa using h
          simp only [Option.isSome_none]
          constructor
          · intro hfalse
            exact absurd hfalse (by simp)
          · rintro ⟨fd, fn2, hfd, hf2, hj2⟩
            obtain rfl := Option.some.inj hfd
            rw [hfn] at hf2
            obtain rfl := Option.some.inj hf2
            exact absurd hj2 hjar

theorem processBuild_ok_cheerpj {env : Env} {fl : Flags} {t : String}
    {fs : List String} {b : OverviewBuild} {o : BuildOutcome} {fs2 : List String}
    {cp : (Bool × String) × Option EmittedHtml}
    (h : processBuild env fl t fs b = .ok (o, fs2)) (hcp : o.cheerpj = some cp) :
    ∃ fd fn c, o.resolved = some fd ∧ fd.filename = some (some fn) ∧ fn ≠ "" ∧
      fd.java_class_name = some c ∧ c ≠ "" := by
  unfold processBuild at h
  split at h
  next =>
    obtain ⟨rfl, rfl⟩ := by simpa using h
    simp at hcp
  next di hres =>
    split at h
    next =>
      obtain ⟨rfl, rfl⟩ := by simpa using h
      simp at hcp
    next hde =>
      split at h
      next =>
        split at h
        next => simp at h
        next fn hfn =>
          split at h
          next hjar =>
            obtain ⟨rfl, rfl⟩ := by simpa using h
            simp only at hcp
            split at hcp
            next hcond =>
              have hcls : (get_file_details di).java_class_name.isSome = true := by
                have := hcond
                simp only [Bool.and_eq_true] at this
                exact this.2
              obtain ⟨c, hc⟩ := Option.isSome_iff_exists.mp hcls
              have hfn2 : (get_file_details di).filename = some (some fn) := by
                unfold pyFilename at hfn
                cases hff : (get_file_details di).filename with
                | none =>
                  rw [hff] at hfn
                  simp at hfn
                  subst hfn
                  exact absurd hjar (by simp [pyLower, pyEndsWith])
                | some v =>
                  rw [hff] at hfn
                  simp at hfn
                  rw [hfn]
              exact ⟨get_file_details di, fn, c, rfl, hfn2, pyEndsWith_jar_ne hjar,
                hc, get_file_details_class_ne hc⟩
            next => simp at hcp
          next hjar =>
            obtain ⟨rfl, rfl⟩ := by simpa using h
            simp at hcp
      next =>
        obtain ⟨rfl, rfl⟩ := by simpa using h
        simp at hcp

theorem processBuilds_mem {env : Env} {fl : Flags} {t : String} :
    ∀ (fs : List String) (bs : List OverviewBuild) (o : BuildOutcome),
      o ∈ (processBuilds env fl t fs bs).1 →
      ∃ fs1 b fs2, processBuild env fl t fs1 b = .ok (o, fs2) := by
  intro fs bs
  induction bs generalizing fs with
  | nil =>
    intro o ho
    simp [processBuilds] at ho
  | cons b rest ih =>
    intro o ho
    unfold processBuilds at ho
    cases hpb : processBuild env fl t fs b with
    | error e =>
      simp only [hpb] at ho
      simp at ho
    | ok pr =>
      simp only [hpb] at ho
      rcases List.mem_cons.mp ho with rfl | hmem
      · exact ⟨fs, b, pr.2, by rw [hpb]⟩
      · exact ih pr.2 o hmem

theorem process_game_mem {env : Env} {fl : Flags} {gid : Nat} {o : BuildOutcome}
    (ho : o ∈ (process_game env fl gid).outcomes) :
    ∃ fs1 b fs2 t, processBuild env fl t fs1 b = .ok (o, fs2) := by
  unfold process_game at ho
  cases hg : env.gameInfo with
  | none =>
    simp only [hg] at ho
    simp at ho
  | some gi =>
    simp only [hg] at ho
    by_cases hbe : gi.builds.isEmpty = true
    · rw [if_pos hbe] at ho
      simp at ho
    · rw [if_neg hbe] at ho
      simp only at ho
      obtain ⟨fs1, b, fs2, hpb⟩ := processBuilds_mem _ _ o ho
      exact ⟨fs1, b, fs2, gi.name, hpb⟩

/-- C1 (corrected): identifier resolution returns the digit string as an
integer for every URL whose host ends with the service domain and whose path
is `/games/<slug>/<digits>`; it returns `none` when the host does not end
with `gamejolt.com`, or when the stripped path has fewer than 3 segments or
does not start with the segment `games`; but when those segment conditions
hold and the last segment is not fully numeric, it falls back to the regex
search for the first numeric group after `/games/<segment>/` instead of
returning `none`. -/
theorem c1_amended (u : PyUrl) :
    (pyEndsWith u.netloc "gamejolt.com" = false → extract_game_id_from_url u = none)
    ∧ (pyEndsWith u.netloc "gamejolt.com" = true →
        ¬ (3 ≤ (pySplitSlash (stripSlashes u.path.data)).length ∧
            (pySplitSlash (stripSlashes u.path.data)).headD [] = "games".data) →
        extract_game_id_from_url u = none)
    ∧ (∀ slug ds : List Char, slug ≠ [] → (∀ c ∈ slug, (c == '/') = false) →
        ds ≠ [] → (∀ c ∈ ds, c.isDigit = true) →
        pyEndsWith u.netloc "gamejolt.com" = true →
        u.path = String.mk ("/games/".data ++ (slug ++ '/' :: ds)) →
        extract_game_id_from_url u = some (digitsToNat ds))
    ∧ (pyEndsWith u.netloc "gamejolt.com" = true →
        (3 ≤ (pySplitSlash (stripSlashes u.path.data)).length ∧
          (pySplitSlash (stripSlashes u.path.data)).headD [] = "games".data) →
        pyIsDigitSeg ((pySplitSlash (stripSlashes u.path.data)).getLastD []) = false →
        extract_game_id_from_url u = searchGamesId u.path.data) := by
  refine ⟨?_, ?_, ?_, ?_⟩
  · intro hh
    unfold extract_game_id_from_url
    simp [hh]
  · intro hh hc
    unfold extract_game_id_from_url
    simp only [hh, if_true]
    rw [if_neg hc]
  · intro slug ds hslug hs hds hdsd hh hp
    obtain ⟨n, p, q⟩ := u
    simp only at hp hh
    subst hp
    exact extract_game_id_pos n slug ds q hh hslug hs hds hdsd
  · intro hh hc hdig
    unfold extract_game_id_from_url
    simp only [hh, if_true]
    rw [if_pos hc, if_neg (by simp only [hdig]; exact Bool.false_ne_true)]

/-- C1 counterexample: with the service host and the path
`/games/slug/123/foo` — whose last segment is not numeric, so the claim as
stated demands the unresolvable result — resolution returns `some 123`
through the regex fallback. -/
theorem c1_counterexample :
    extract_game_id_from_url ⟨"gamejolt.com", "/games/slug/123/foo", []⟩ = some 123 ∧
    (pySplitSlash (stripSlashes ("/games/slug/123/foo").data)).getLastD [] = "foo".data ∧
    pyIsDigitSeg "foo".data = false := by
  refine ⟨by decide, by decide, by decide⟩

/-- C1 witness: the amended theorem applied to the concrete URL
`gamejolt.com/games/my-game/42`. -/
theorem c1_witness :
    extract_game_id_from_url ⟨"gamejolt.com", "/games/my-game/42", []⟩ = some 42 := by
  have h := (c1_amended ⟨"gamejolt.com", "/games/my-game/42", []⟩).2.2.1
    "my-game".data "42".data (by decide) (by decide) (by decide) (by decide)
    (by decide) (by decide)
  rw [h]
  decide

/-- C2 (corrected): the Applet Runner Emitter fails exactly when the entry
class name key or the filename key is absent from the file details (it does
not reject present-but-empty values); and every emitter invocation made by
the orchestrator carries a non-empty filename and a non-empty entry class
name. -/
theorem c2_applet_precondition :
    (∀ (fd : FileDetails) (dir : String),
      (fd.java_class_name = none ∨ fd.filename = none) →
      create_cheerpj_html fd dir =
        ((false, "Missing Java class name or filename in file details"), none))
    ∧ (∀ (env : Env) (fl : Flags) (gid : Nat), ∀ o ∈ (process_game env fl gid).outcomes,
        ∀ cp, o.cheerpj = some cp →
        ∃ fd fn c, o.resolved = some fd ∧ fd.filename = some (some fn) ∧ fn ≠ "" ∧
          fd.java_class_name = some c ∧ c ≠ "") := by
  constructor
  · intro fd dir h
    unfold create_cheerpj_html
    rcases h with h | h <;> simp [h]
  · intro env fl gid o ho cp hcp
    obtain ⟨fs1, b, fs2, t, hpb⟩ := process_game_mem ho
    exact processBuild_ok_cheerpj hpb hcp

/-- C2 counterexample: with the filename key present but empty (and a class
name present), the emitter succeeds and writes the page instead of treating
the empty filename as a precondition failure. -/
theorem c2_counterexample :
    (create_cheerpj_html { filename := some (some ""), java_class_name := some "Main" }
      "out").1.1 = true ∧
    (create_cheerpj_html { filename := some (some ""), java_class_name := some "Main" }
      "out").2.isSome = true ∧
    pyFilename { filename := some (some ""), java_class_name := some "Main" } = some "" :=
  ⟨rfl, rfl, rfl⟩

/-- C2 witness: the amended theorem applied to details with the class-name
key absent. -/
theorem c2_witness :
    create_cheerpj_html
      ({ java_class_name := none, filename := some (some "a.jar") } : FileDetails) "d" =
      ((false, "Missing Java class name or filename in file details"), none) :=
  c2_applet_precondition.1 _ _ (Or.inl rfl)

/-- C3 (confirmed): applet emission fails writing no file when the entry
class name or the filename key is absent, and otherwise succeeds producing
exactly one file `cheerpj.html` in the output directory, with width
defaulting to 640 and height to 480 when the fields are unset. -/
theorem c3_emission (fd : FileDetails) (dir : String) :
    ((fd.java_class_name = none ∨ fd.filename = none) →
      create_cheerpj_html fd dir =
        ((false, "Missing Java class name or filename in file details"), none))
    ∧ (fd.java_class_name ≠ none → fd.filename ≠ none →
        ∃ e : EmittedHtml,
          create_cheerpj_html fd dir = ((true, pyPathJoin dir "cheerpj.html"), some e) ∧
          e.path = pyPathJoin dir "cheerpj.html" ∧
          e.width = fd.width.getD 640 ∧ e.height = fd.height.getD 480) := by
  constructor
  · intro h
    unfold create_cheerpj_html
    rcases h with h | h <;> simp [h]
  · intro h1 h2
    unfold create_cheerpj_html
    rw [if_neg (by simp [Option.isNone_iff_eq_none, h1, h2])]
    exact ⟨_, rfl, rfl, rfl, rfl⟩

/-- C3 witness: the theorem applied to concrete details carrying both
keys and no dimensions. -/
theorem c3_witness :
    ∃ e : EmittedHtml,
      create_cheerpj_html { filename := some (some "game.jar"), java_class_name := some "Main" }
        "out" = ((true, pyPathJoin "out" "cheerpj.html"), some e) ∧
      e.path = pyPathJoin "out" "cheerpj.html" ∧ e.width = 640 ∧ e.height = 480 :=
  (c3_emission { filename := some (some "game.jar"), java_class_name := some "Main" } "out").2
    (by decide) (by decide)

/-- C4 (corrected): for every ASCII title, sanitization yields only
characters from `[A-Za-z0-9_-]` (every disallowed character mapped to an
underscore, the result trimmed, every remaining space mapped to an
underscore), and the result is a non-empty path segment if and only if the
title contains at least one character that is not a space. -/
theorem c4_amended (t : String) (hascii : ∀ c ∈ t.data, c.toNat < 128) :
    ((sanitize_title t).data.all
      (fun c => c.isAlphanum || c == '-' || c == '_') = true)
    ∧ (sanitize_title t ≠ "" ↔ ∃ c ∈ t.data, c ≠ ' ') := by
  constructor
  · rw [List.all_eq_true]
    intro c hc
    unfold sanitize_title at hc
    simp only [List.mem_map] at hc
    obtain ⟨c1, hc1, rfl⟩ := hc
    have hmem := mem_pyStripWs hc1
    simp only [List.mem_map] at hmem
    obtain ⟨c0, _, rfl⟩ := hmem
    rcases pyKeepChar_cases c0 with hk | ⟨hk, hg⟩
    · rw [hk]
      decide
    · rw [hk]
      by_cases hsp : (c0 == ' ') = true
      · rw [if_pos hsp]
        decide
      · rw [if_neg hsp]
        simp only [Bool.or_eq_true] at hg
        rcases hg with ((ha | hs) | hd) | hu
        · simp [ha]
        · exact absurd hs hsp
        · simp [hd]
        · simp [hu]
  · have key : sanitize_title t = "" ↔ ∀ c ∈ t.data, c = ' ' := by
      unfold sanitize_title
      rw [String.ext_iff]
      show (pyStripWs (t.data.map pyKeepChar)).map _ = "".data ↔ _
      rw [show "".data = [] from rfl, List.map_eq_nil_iff, pyStripWs_eq_nil_iff]
      constructor
      · intro h c hc
        exact pyIsSpace_pyKeepChar_iff.mp (h _ (List.mem_map_of_mem pyKeepChar hc))
      · intro h c hc
        simp only [List.mem_map] at hc
        obtain ⟨c0, hc0, rfl⟩ := hc
        exact pyIsSpace_pyKeepChar_iff.mpr (h c0 hc0)
    rw [ne_eq, key]
    push_neg
    rfl

/-- C4 counterexample: the all-space title sanitizes to the empty string,
which is not a valid (non-empty) path segment. -/
theorem c4_counterexample : sanitize_title " " = "" := rfl

/-- C4 witness: the amended theorem applied to the concrete title
`My Game!`. -/
theorem c4_witness :
    ((sanitize_title "My Game!").data.all
      (fun c => c.isAlphanum || c == '-' || c == '_') = true)
    ∧ (sanitize_title "My Game!" ≠ "" ↔ ∃ c ∈ "My Game!".data, c ≠ ' ') :=
  c4_amended "My Game!" (by decide)

/-- C5 (corrected): if the destination file already exists the transfer
declares success and returns that path with no network request; hence after
a successful first call, a second call with the identical arguments issues
no network fetch.  (After a failed first call the second call fetches
again, so two calls are not bounded by one fetch unconditionally.) -/
theorem c5_amended (net net2 : String → Option Unit) (fs : List String)
    (url : Option String) (fn title : String) (op : Option String) (dd : String) :
    (fs.contains (download_dest fn title op dd) = true →
      download_file net fs url fn title op dd =
        ((true, download_dest fn title op dd), fs, 0))
    ∧ ((download_file net fs url fn title op dd).1.1 = true →
        (download_file net2 (download_file net fs url fn title op dd).2.1
          url fn title op dd).2.2 = 0) := by
  constructor
  · intro h
    unfold download_file
    rw [if_pos h]
  · intro h
    unfold download_file at h ⊢
    by_cases hc : fs.contains (download_dest fn title op dd) = true
    · rw [if_pos hc] at h ⊢
      rw [if_pos hc]
    · rw [if_neg hc] at h ⊢
      cases url with
      | none => simp at h
      | some u =>
        cases hn : net u with
        | none => simp [hn] at h
        | some _ =>
          simp only [hn]
          rw [if_pos (by simp)]

/-- C5 counterexample: with a transport that always fails, two calls with
the identical destination path issue two network fetches, refuting the
at-most-once bound as stated. -/
theorem c5_counterexample :
    ¬ ((download_file (fun _ => none) [] (some "u") "f.jar" "T" (some "out/f.jar")
          "downloads").2.2 +
        (download_file (fun _ => none)
          ((download_file (fun _ => none) [] (some "u") "f.jar" "T" (some "out/f.jar")
            "downloads").2.1)
          (some "u") "f.jar" "T" (some "out/f.jar") "downloads").2.2 ≤ 1) := by
  decide

/-- C5 witness: the amended theorem applied to a filesystem that already
contains the destination path. -/
theorem c5_witness :
    download_file (fun _ => none) ["out/f.jar"] none "f.jar" "T" (some "out/f.jar")
      "downloads" = ((true, "out/f.jar"), ["out/f.jar"], 0) := by
  have h := (c5_amended (fun _ => none) (fun _ => none) ["out/f.jar"] none "f.jar" "T"
    (some "out/f.jar") "downloads").1 (by decide)
  rw [h]
  rfl

/-- C6 (confirmed): token extraction equals the lookup of the first
retained `token` query value, and equals the function with the
direct-token-URL branch removed: the second branch re-reads the same
parsed query, so it never changes the outcome decided by the first. -/
theorem c6_token_branches (u : PyUrl) :
    extract_token_from_url u = pyParseQsFirst u.query "token" ∧
    extract_token_from_url u = extract_token_first_branch u := by
  unfold extract_token_from_url extract_token_first_branch
  cases h : pyParseQsFirst u.query "token" with
  | some v => simp
  | none =>
    constructor
    · by_cases hc : (u.netloc == "gamejolt.net" && u.path == "") = true
      · simp [hc, h]
      · simp [Bool.not_eq_true] at hc
        simp [hc, h]
    · by_cases hc : (u.netloc == "gamejolt.net" && u.path == "") = true
      · simp [hc, h]
      · simp [Bool.not_eq_true] at hc
        simp [hc, h]

/-- C7 (code bug): a gameserver payload whose `build.primary_file` lacks a
filename makes the orchestrator crash (uncaught `AttributeError` from
`filename.lower()`) when downloads are enabled, aborting the whole build
iteration although a sibling build would have resolved; the claimed
skip-and-continue isolation does not hold for this shape failure. -/
theorem c7_crash :
    (process_game envC7 { download := true } 7).crashed =
      some "AttributeError: NoneType object has no attribute lower" ∧
    (process_game envC7 { download := true } 7).outcomes = [] ∧
    get_build_download_url envC7 2 ≠ none := by
  refine ⟨rfl, rfl, ?_⟩
  decide

/-- C8 (confirmed): the platform collection extracted from a build contains
Windows, Mac, Linux and Other exactly for the OS flags that are set — the
input is a keyed record, so field order cannot matter — and a build with
`os_windows` and `os_linux` yields exactly `[Windows, Linux]`. -/
theorem c8_platforms (di : DownloadInfo) (b : Build) (hb : di.build = some b) :
    (∀ p : String, p ∈ ((get_file_details di).platforms.getD []) ↔
      ((p = "Windows" ∧ b.os_windows = true) ∨ (p = "Mac" ∧ b.os_mac = true) ∨
       (p = "Linux" ∧ b.os_linux = true) ∨ (p = "Other" ∧ b.os_other = true)))
    ∧ (b.os_windows = true → b.os_mac = false → b.os_linux = true → b.os_other = false →
        (get_file_details di).platforms = some ["Windows", "Linux"]) := by
  constructor
  · intro p
    simp only [get_file_details, hb]
    cases hw : b.os_windows <;> cases hm : b.os_mac <;> cases hl : b.os_linux <;>
      cases ho : b.os_other <;> simp
  · intro hw hm hl ho
    simp [get_file_details, hb, hw, hm, hl, ho]

/-- C8 witness: the theorem applied to the concrete build with the Windows
and Linux flags set. -/
theorem c8_witness :
    (get_file_details { build := some { os_windows := true, os_linux := true } }).platforms =
      some ["Windows", "Linux"] :=
  (c8_platforms { build := some { os_windows := true, os_linux := true } }
    { os_windows := true, os_linux := true } rfl).2 rfl rfl rfl rfl

/-- C9 (confirmed): in a run with downloads enabled that completes without
crashing, a resolved build is transferred exactly when its filename ends in
`.jar` case-insensitively, and the no-JAR notice is printed precisely when
the accumulated JAR list is empty (builds were iterated). -/
theorem c9_jar_selection (env : Env) (fl : Flags) (gid : Nat)
    (hdl : fl.download = true)
    (hcr : (process_game env fl gid).crashed = none) :
    (∀ o ∈ (process_game env fl gid).outcomes,
      (o.downloadResult.isSome = true ↔
        ∃ fd fn, o.resolved = some fd ∧ pyFilename fd = some fn ∧
          pyEndsWith (pyLower fn) ".jar" = true))
    ∧ ((process_game env fl gid).outcomes ≠ [] →
        ((process_game env fl gid).noJarNotice = true ↔
          (process_game env fl gid).jarFiles = [])) := by
  unfold process_game at hcr ⊢
  cases hg : env.gameInfo with
  | none =>
    simp only [hg]
    constructor
    · intro o ho
      simp at ho
    · intro hne
      simp at hne
  | some gi =>
    simp only [hg] at hcr ⊢
    by_cases hbe : gi.builds.isEmpty = true
    · rw [if_pos hbe] at hcr ⊢
      constructor
      · intro o ho
        simp at ho
      · intro hne
        simp at hne
    · rw [if_neg hbe] at hcr ⊢
      simp only at hcr ⊢
      constructor
      · intro o ho
        obtain ⟨fs1, b, fs2, hpb⟩ := processBuilds_mem _ _ o ho
        exact processBuild_ok_downloadResult hdl hpb
      · intro hne
        simp only [hcr, hdl, Bool.true_and]
        exact List.isEmpty_iff

/-- C9 witness: the theorem applied to a concrete environment whose single
build resolves to `Game.JAR` and downloads successfully. -/
theorem c9_witness :
    (∀ o ∈ (process_game envC9 {} 5).outcomes,
      (o.downloadResult.isSome = true ↔
        ∃ fd fn, o.resolved = some fd ∧ pyFilename fd = some fn ∧
          pyEndsWith (pyLower fn) ".jar" = true))
    ∧ ((process_game envC9 {} 5).outcomes ≠ [] →
        ((process_game envC9 {} 5).noJarNotice = true ↔
          (process_game envC9 {} 5).jarFiles = [])) :=
  c9_jar_selection envC9 {} 5 rfl rfl

/-- C10 (confirmed): the host check is a plain suffix test, so the URL with
host `evilgamejolt.com` — neither the service domain nor one of its
subdomains — and path `/games/cool-game/123` resolves to `some 123`. -/
theorem c10_host_suffix :
    extract_game_id_from_url ⟨"evilgamejolt.com", "/games/cool-game/123", []⟩ = some 123 ∧
    "evilgamejolt.com" ≠ "gamejolt.com" ∧
    pyEndsWith "evilgamejolt.com" ".gamejolt.com" = false := by
  refine ⟨by decide, by decide, by decide⟩
